import Mathlib

/-!
# Verification of the AAVE position monitor core

Shallow embedding of `src/aave_monitor.py` (class `AAVEMonitorEnhanced`):
the risk calculator `_calculate_liquidation_price`, the endpoint pool
(`_init_web3_providers` / `_get_working_provider` and the inline
success/failure reporting in `get_position_data`), the position fetcher
`get_position_data`, and the per-cycle aggregation of `monitor_loop`.

Python floats are modelled as exact rationals (`ℚ`); raw on-chain values
are natural numbers.  Remote effects (the `is_connected` liveness probe
and the `getUserAccountData` contract call) are modelled as oracle
functions passed in explicitly; an exception raised by a remote call is
the oracle returning `false` / `none`.
-/

namespace AaveMonitor

/-- Result record of `_calculate_liquidation_price` (the dict literal at
lines 221–225 of `aave_monitor.py`). -/
structure RiskMetrics where
  liquidation_price_ratio : ℚ
  price_drop_to_liquidation_pct : ℚ
  current_price_normalized : ℚ
  deriving DecidableEq, Repr

/-- `_calculate_liquidation_price(collateral_usd, debt_usd,
liquidation_threshold, health_factor)`: returns `none` on degenerate
inputs, otherwise ratio `1/HF` (or `0` for `HF ≤ 0`) and the derived
percentage drop. -/
def calculateLiquidationPrice (collateral_usd debt_usd liquidation_threshold
    health_factor : ℚ) : Option RiskMetrics :=
  if collateral_usd = 0 ∨ debt_usd = 0 ∨ liquidation_threshold = 0 then
    none
  else
    let current_price_normalized : ℚ := 1
    let liquidation_price_ratio : ℚ :=
      if health_factor > 0 then 1 / health_factor else 0
    let price_drop_pct : ℚ := (1 - liquidation_price_ratio) * 100
    some { liquidation_price_ratio := liquidation_price_ratio
           price_drop_to_liquidation_pct := price_drop_pct
           current_price_normalized := current_price_normalized }

/-- C1: for every health factor `HF > 0` with collateral, debt and
threshold all nonzero, the risk calculator returns
`liquidation_price_ratio = 1/HF` and
`price_drop_to_liquidation_pct = (1 - 1/HF) * 100`; in particular the
spec's Scenario B (collateral 10000, debt 5000, threshold 0.8,
HF = 1.6) yields a drop of exactly 37.5, and Scenario A (HF = 1.0)
yields exactly 0. -/
theorem liquidation_price_positive_hf (c d t hf : ℚ)
    (hc : c ≠ 0) (hd : d ≠ 0) (ht : t ≠ 0) (hhf : 0 < hf) :
    calculateLiquidationPrice c d t hf =
      some { liquidation_price_ratio := 1 / hf
             price_drop_to_liquidation_pct := (1 - 1 / hf) * 100
             current_price_normalized := 1 } ∧
    calculateLiquidationPrice 10000 5000 (8/10) (8/5) =
      some { liquidation_price_ratio := 5/8
             price_drop_to_liquidation_pct := 75/2
             current_price_normalized := 1 } ∧
    calculateLiquidationPrice 10000 5000 (8/10) 1 =
      some { liquidation_price_ratio := 1
             price_drop_to_liquidation_pct := 0
             current_price_normalized := 1 } := by
  have hdeg : ¬(c = 0 ∨ d = 0 ∨ t = 0) := by simp [hc, hd, ht]
  refine ⟨?_, by norm_num [calculateLiquidationPrice],
    by norm_num [calculateLiquidationPrice]⟩
  simp only [calculateLiquidationPrice, if_neg hdeg, gt_iff_lt, if_pos hhf]

/-- Witness for C1 at `c = 10000`, `d = 5000`, `t = 8/10`, `hf = 8/5`. -/
theorem liquidation_price_positive_hf_witness :
    calculateLiquidationPrice 10000 5000 (8/10) (8/5) =
      some { liquidation_price_ratio := 1 / (8/5)
             price_drop_to_liquidation_pct := (1 - 1 / (8/5)) * 100
             current_price_normalized := 1 } :=
  (liquidation_price_positive_hf 10000 5000 (8/10) (8/5)
    (by norm_num) (by norm_num) (by norm_num) (by norm_num)).1

/-- C3: whenever collateral, debt or threshold is zero, the risk
calculator returns `none` (absent), for every health-factor value; over
`ℚ` the computation is total, so no division error can occur. -/
theorem liquidation_price_degenerate (c d t hf : ℚ)
    (h : c = 0 ∨ d = 0 ∨ t = 0) :
    calculateLiquidationPrice c d t hf = none := by
  simp only [calculateLiquidationPrice, if_pos h]

/-- Witness for C3 at `c = 0`, `d = 5`, `t = 1/2`, `hf = 2`. -/
theorem liquidation_price_degenerate_witness :
    calculateLiquidationPrice 0 5 (1/2) 2 = none :=
  liquidation_price_degenerate 0 5 (1/2) 2 (Or.inl rfl)

/-- C8: for `HF ≤ 0` with nonzero collateral, debt and threshold, the
ratio is `0` and the drop is `100`. -/
theorem liquidation_price_nonpositive_hf (c d t hf : ℚ)
    (hc : c ≠ 0) (hd : d ≠ 0) (ht : t ≠ 0) (hhf : hf ≤ 0) :
    calculateLiquidationPrice c d t hf =
      some { liquidation_price_ratio := 0
             price_drop_to_liquidation_pct := 100
             current_price_normalized := 1 } := by
  have hdeg : ¬(c = 0 ∨ d = 0 ∨ t = 0) := by simp [hc, hd, ht]
  simp only [calculateLiquidationPrice, if_neg hdeg, gt_iff_lt,
    if_neg (not_lt.mpr hhf)]
  norm_num

/-- Witness for C8 at `c = 1`, `d = 1`, `t = 1`, `hf = -3`. -/
theorem liquidation_price_nonpositive_hf_witness :
    calculateLiquidationPrice 1 1 1 (-3) =
      some { liquidation_price_ratio := 0
             price_drop_to_liquidation_pct := 100
             current_price_normalized := 1 } :=
  liquidation_price_nonpositive_hf 1 1 1 (-3)
    (by norm_num) (by norm_num) (by norm_num) (by norm_num)

/-! ## Endpoint pool -/

/-- One entry of `self.w3_providers` (dict literal at lines 144–149):
the bound `w3`/`contract` handles are pure capability objects and carry
no state the claims mention, so only `url` and `failed_count` are kept. -/
structure Provider where
  url : String
  failed_count : ℕ
  deriving DecidableEq, Repr

instance : Inhabited Provider := ⟨⟨"", 0⟩⟩

/-- The pool's mutable state: `self.w3_providers` and
`self.current_rpc_index`. -/
structure PoolState where
  providers : List Provider
  current_rpc_index : ℕ
  deriving DecidableEq, Repr

/-- The `while attempts < max_attempts` loop of `_get_working_provider`
(lines 164–178).  `probe attempts idx` is the outcome of
`provider['w3'].is_connected()` on scan step `attempts` for the provider
at position `idx` (an exception in the probe counts as `false`, matching
the bare `except: pass`).  Returns the selected index (`none` when the
scan budget is exhausted) together with the final cursor value. -/
def acquireScan (providers : List Provider) (probe : ℕ → ℕ → Bool) :
    ℕ → ℕ → ℕ → Option ℕ × ℕ
  | idx, _, 0 => (none, idx)
  | idx, attempts, remaining + 1 =>
    let provider := providers.getD idx default
    if provider.failed_count < 3 ∧ probe attempts idx = true then
      (some idx, idx)
    else
      acquireScan providers probe ((idx + 1) % providers.length)
        (attempts + 1) remaining

/-- `_get_working_provider` (lines 159–184): scan at most
`2 × pool size` candidates; on success return that provider (the cursor
rests on it); otherwise zero every `failed_count` and return the
provider at position 0.  The returned `Bool` records whether the forced
full reset fired. -/
def getWorkingProvider (s : PoolState) (probe : ℕ → ℕ → Bool) :
    ℕ × PoolState × Bool :=
  let max_attempts := s.providers.length * 2
  match acquireScan s.providers probe s.current_rpc_index 0 max_attempts with
  | (some idx, _) => (idx, { s with current_rpc_index := idx }, false)
  | (none, finalIdx) =>
    (0, { providers := s.providers.map fun p => { p with failed_count := 0 }
          current_rpc_index := finalIdx }, true)

/-- Overwrite the `failed_count` of the provider at position `i`. -/
def setFailedCount (providers : List Provider) (i c : ℕ) : List Provider :=
  providers.set i { providers.getD i default with failed_count := c }

/-- `provider['failed_count'] = 0` on success (line 246). -/
def reportSuccess (s : PoolState) (i : ℕ) : PoolState :=
  { s with providers := setFailedCount s.providers i 0 }

/-- The `except` branch of `get_position_data` (lines 277–282):
`provider['failed_count'] += 1` and
`current_rpc_index = (current_rpc_index + 1) % len(providers)`. -/
def reportFailure (s : PoolState) (i : ℕ) : PoolState :=
  { providers := setFailedCount s.providers i
      ((s.providers.getD i default).failed_count + 1)
    current_rpc_index := (s.current_rpc_index + 1) % s.providers.length }

/-- A successful scan only ever selects a provider whose failure count
is below 3 at scan time. -/
theorem acquireScan_some_count_lt (providers : List Provider)
    (probe : ℕ → ℕ → Bool) :
    ∀ remaining idx attempts i fin,
      acquireScan providers probe idx attempts remaining = (some i, fin) →
      (providers.getD i default).failed_count < 3 := by
  intro remaining
  induction remaining with
  | zero =>
    intro idx attempts i fin h
    simp [acquireScan] at h
  | succ n ih =>
    intro idx attempts i fin h
    simp only [acquireScan] at h
    split at h
    · rename_i hcond
      simp only [Prod.mk.injEq, Option.some.injEq] at h
      obtain ⟨rfl, -⟩ := h
      exact hcond.1
    · exact ih _ _ _ _ h

/-- If every provider's failure count is at least 3, the scan finds
nothing, whatever the probe answers and however much budget it has. -/
theorem acquireScan_all_tripped (providers : List Provider)
    (probe : ℕ → ℕ → Bool)
    (hall : ∀ p ∈ providers, 3 ≤ p.failed_count)
    (hlen : 0 < providers.length) :
    ∀ remaining idx attempts, idx < providers.length →
      (acquireScan providers probe idx attempts remaining).1 = none := by
  intro remaining
  induction remaining with
  | zero => intro idx attempts hidx; simp [acquireScan]
  | succ n ih =>
    intro idx attempts hidx
    have hmem : providers.getD idx default ∈ providers := by
      have hidx' : providers.getD idx default = providers[idx] := by
        simp [List.getD_eq_getElem?_getD, List.getElem?_eq_getElem hidx]
      rw [hidx']
      exact List.getElem_mem hidx
    have hcond : ¬((providers.getD idx default).failed_count < 3 ∧
        probe attempts idx = true) := by
      rintro ⟨hlt, -⟩
      exact absurd (hall _ hmem) (not_le.mpr hlt)
    simp only [acquireScan, if_neg hcond]
    exact ih _ _ (Nat.mod_lt _ hlen)

/-- A scan whose starting candidate is usable (count below 3, probe
answers true) selects it immediately. -/
theorem acquireScan_head_hit (providers : List Provider)
    (probe : ℕ → ℕ → Bool) (idx attempts remaining : ℕ)
    (hcount : (providers.getD idx default).failed_count < 3)
    (hprobe : probe attempts idx = true) :
    acquireScan providers probe idx attempts (remaining + 1) =
      (some idx, idx) := by
  simp only [acquireScan]
  rw [if_pos ⟨hcount, hprobe⟩]

/-- `setFailedCount` keeps the pool size. -/
theorem setFailedCount_length (providers : List Provider) (i c : ℕ) :
    (setFailedCount providers i c).length = providers.length := by
  simp [setFailedCount]

/-- Reading back the provider just updated by `setFailedCount`. -/
theorem setFailedCount_getD_self (providers : List Provider) (i c : ℕ)
    (h : i < providers.length) :
    (setFailedCount providers i c).getD i default =
      { providers.getD i default with failed_count := c } := by
  simp [setFailedCount, List.getD_eq_getElem?_getD,
    List.getElem?_set_self h]

/-- C4: whenever `_get_working_provider` returns without firing the
forced full reset, the returned endpoint's consecutive-failure count
was below 3, and no failure count changed; hence an endpoint whose
count has reached 3 is never returned, on this or any later call, until
a forced full reset occurs. -/
theorem acquire_never_returns_tripped (s : PoolState)
    (probe : ℕ → ℕ → Bool) (i : ℕ) (s2 : PoolState)
    (h : getWorkingProvider s probe = (i, s2, false)) :
    (s.providers.getD i default).failed_count < 3 ∧
    s2.providers = s.providers := by
  simp only [getWorkingProvider] at h
  rcases hscan : acquireScan s.providers probe s.current_rpc_index 0
      (s.providers.length * 2) with ⟨res, fin⟩
  rw [hscan] at h
  cases res with
  | none => simp at h
  | some j =>
    simp only [Prod.mk.injEq] at h
    obtain ⟨rfl, hs2, -⟩ := h
    exact ⟨acquireScan_some_count_lt s.providers probe _ _ _ _ _ hscan,
      by rw [← hs2]⟩

/-- Witness for C4: a two-endpoint pool where endpoint 0 has tripped
(count 5); acquire returns endpoint 1, whose count was 0. -/
theorem acquire_never_returns_tripped_witness :
    (([⟨"a", 5⟩, ⟨"b", 0⟩] : List Provider).getD 1 default).failed_count
      < 3 ∧
    (PoolState.mk [⟨"a", 5⟩, ⟨"b", 0⟩] 1).providers =
      [⟨"a", 5⟩, ⟨"b", 0⟩] :=
  acquire_never_returns_tripped ⟨[⟨"a", 5⟩, ⟨"b", 0⟩], 0⟩
    (fun _ _ => true) 1 ⟨[⟨"a", 5⟩, ⟨"b", 0⟩], 1⟩ (by decide)

/-- C5: when every endpoint's failure count is at least 3, the next
`_get_working_provider` call still returns an endpoint — position 0,
a valid index of the (size-preserving) resulting pool — and afterwards
every endpoint's failure count is 0. -/
theorem acquire_forced_reset (s : PoolState) (probe : ℕ → ℕ → Bool)
    (hlen : 0 < s.providers.length)
    (hcursor : s.current_rpc_index < s.providers.length)
    (hall : ∀ p ∈ s.providers, 3 ≤ p.failed_count) :
    (getWorkingProvider s probe).1 = 0 ∧
    (getWorkingProvider s probe).1 <
      (getWorkingProvider s probe).2.1.providers.length ∧
    ∀ p ∈ (getWorkingProvider s probe).2.1.providers,
      p.failed_count = 0 := by
  have hnone := acquireScan_all_tripped s.providers probe hall hlen
    (s.providers.length * 2) s.current_rpc_index 0 hcursor
  simp only [getWorkingProvider]
  rcases hscan : acquireScan s.providers probe s.current_rpc_index 0
      (s.providers.length * 2) with ⟨res, fin⟩
  rw [hscan] at hnone
  cases res with
  | some j => simp at hnone
  | none =>
    refine ⟨rfl, by simpa using hlen, ?_⟩
    intro p hp
    simp only [List.mem_map] at hp
    obtain ⟨q, -, rfl⟩ := hp
    rfl

/-- Witness for C5: both endpoints tripped; acquire returns endpoint 0
and zeroes every count. -/
theorem acquire_forced_reset_witness :
    (getWorkingProvider ⟨[⟨"a", 3⟩, ⟨"b", 4⟩], 0⟩ (fun _ _ => true)).1
      = 0 ∧
    (getWorkingProvider ⟨[⟨"a", 3⟩, ⟨"b", 4⟩], 0⟩ (fun _ _ => true)).1 <
      (getWorkingProvider ⟨[⟨"a", 3⟩, ⟨"b", 4⟩], 0⟩
        (fun _ _ => true)).2.1.providers.length ∧
    ∀ p ∈ (getWorkingProvider ⟨[⟨"a", 3⟩, ⟨"b", 4⟩], 0⟩
        (fun _ _ => true)).2.1.providers, p.failed_count = 0 :=
  acquire_forced_reset ⟨[⟨"a", 3⟩, ⟨"b", 4⟩], 0⟩ (fun _ _ => true)
    (by decide) (by decide) (by decide)

/-- C9, counterexample: pool `[a (count 0), b (count 3)]`, cursor on
`a`.  Endpoint `a` (index 0) fails: `reportFailure` bumps its count and
moves the cursor to `b`; but `b` is skipped (count 3), the scan wraps
around, and the very next acquire returns index 0 — the endpoint that
just failed. -/
theorem report_failure_retry_counterexample :
    reportFailure ⟨[⟨"a", 0⟩, ⟨"b", 3⟩], 0⟩ 0 =
      ⟨[⟨"a", 1⟩, ⟨"b", 3⟩], 1⟩ ∧
    (getWorkingProvider ⟨[⟨"a", 1⟩, ⟨"b", 3⟩], 1⟩
      (fun _ _ => true)).1 = 0 := by
  constructor <;> rfl

/-- C9, amended: `reportFailure` increments the failed endpoint's count
by one and advances the cursor to the next endpoint, so the following
acquire starts its scan elsewhere; when that next endpoint is usable
(count below 3, probe answers), acquire returns it, which is not the
endpoint that just failed.  (Without that proviso the failed endpoint
can be returned again — see the counterexample.) -/
theorem report_failure_advances_cursor (s : PoolState) (i : ℕ)
    (probe : ℕ → ℕ → Bool)
    (hlen : 2 ≤ s.providers.length) (hi : i < s.providers.length)
    (hcursor : s.current_rpc_index = i)
    (hnext : ((reportFailure s i).providers.getD
        ((i + 1) % s.providers.length) default).failed_count < 3)
    (hprobe : probe 0 ((i + 1) % s.providers.length) = true) :
    ((reportFailure s i).providers.getD i default).failed_count =
      (s.providers.getD i default).failed_count + 1 ∧
    (reportFailure s i).current_rpc_index =
      (i + 1) % s.providers.length ∧
    (getWorkingProvider (reportFailure s i) probe).1 =
      (i + 1) % s.providers.length ∧
    (i + 1) % s.providers.length ≠ i := by
  have hlenEq : (reportFailure s i).providers.length =
      s.providers.length :=
    setFailedCount_length ..
  have hj : (i + 1) % s.providers.length ≠ i := by
    rcases Nat.lt_or_ge (i + 1) s.providers.length with hlt | hge
    · rw [Nat.mod_eq_of_lt hlt]; omega
    · have hEq : i + 1 = s.providers.length := by omega
      rw [hEq, Nat.mod_self]; omega
  refine ⟨?_, ?_, ?_, hj⟩
  · show ((setFailedCount s.providers i _).getD i default).failed_count = _
    rw [setFailedCount_getD_self s.providers i _ hi]
  · show (s.current_rpc_index + 1) % s.providers.length = _
    rw [hcursor]
  · obtain ⟨m, hm⟩ : ∃ m, (reportFailure s i).providers.length * 2 =
        m + 1 := ⟨(reportFailure s i).providers.length * 2 - 1, by omega⟩
    have hscan := acquireScan_head_hit (reportFailure s i).providers
      probe ((i + 1) % s.providers.length) 0 m hnext hprobe
    have hcur : (reportFailure s i).current_rpc_index =
        (i + 1) % s.providers.length := by
      show (s.current_rpc_index + 1) % s.providers.length = _
      rw [hcursor]
    simp only [getWorkingProvider]
    rw [hcur, hm, hscan]

/-- Witness for C9's amended theorem: two healthy endpoints, endpoint 0
fails, acquire then returns endpoint 1. -/
theorem report_failure_advances_cursor_witness :
    ((reportFailure ⟨[⟨"a", 0⟩, ⟨"b", 0⟩], 0⟩ 0).providers.getD 0
        default).failed_count =
      (([⟨"a", 0⟩, ⟨"b", 0⟩] : List Provider).getD 0
        default).failed_count + 1 ∧
    (reportFailure ⟨[⟨"a", 0⟩, ⟨"b", 0⟩], 0⟩ 0).current_rpc_index =
      (0 + 1) % 2 ∧
    (getWorkingProvider (reportFailure ⟨[⟨"a", 0⟩, ⟨"b", 0⟩], 0⟩ 0)
      (fun _ _ => true)).1 = (0 + 1) % 2 ∧
    (0 + 1) % 2 ≠ 0 :=
  report_failure_advances_cursor ⟨[⟨"a", 0⟩, ⟨"b", 0⟩], 0⟩ 0
    (fun _ _ => true) (by decide) (by decide) (by decide) (by decide)
    (by decide)

/-! ## Position fetcher -/

/-- The six raw `uint256` outputs of the remote `getUserAccountData`
call (`account_data[0] .. account_data[5]`). -/
structure RawAccountData where
  totalCollateralBase : ℕ
  totalDebtBase : ℕ
  availableBorrowsBase : ℕ
  currentLiquidationThreshold : ℕ
  ltv : ℕ
  healthFactor : ℕ
  deriving DecidableEq, Repr

/-- The dict returned by `get_position_data` (lines 264–275). -/
structure PositionSnapshot where
  address : String
  collateral_usd : ℚ
  debt_usd : ℚ
  available_borrows_usd : ℚ
  health_factor : ℚ
  liquidation_threshold : ℚ
  ltv : ℚ
  liquidation_price_data : Option RiskMetrics
  timestamp : String
  rpc_used : String
  deriving DecidableEq, Repr

/-- The third argument `get_position_data` hands to
`_calculate_liquidation_price`: the raw threshold divided by `1e4`
(line 252) and then by `100` again (line 260, "Convert to decimal"). -/
def liquidationThresholdPassed (raw : ℕ) : ℚ := (raw : ℚ) / 10 ^ 4 / 100

/-- The liquidation-threshold fraction as the spec's data-model
invariant defines it: the raw on-chain integer divided by its
documented fixed-point scale `1e4` (raw 8000 ↦ 0.8).  Spec-side
comparator for what the risk calculator is claimed to receive. -/
def liquidationThresholdSpecFraction (raw : ℕ) : ℚ := (raw : ℚ) / 10 ^ 4

/-- Lines 249–275 of `get_position_data`: scale the six raw values,
invoke the risk calculator, and build the snapshot tagged with the
serving endpoint's URL. -/
def parseSnapshot (address : String) (d : RawAccountData)
    (rpc_url now : String) : PositionSnapshot :=
  let total_collateral : ℚ := (d.totalCollateralBase : ℚ) / 10 ^ 8
  let total_debt : ℚ := (d.totalDebtBase : ℚ) / 10 ^ 8
  let available_borrows : ℚ := (d.availableBorrowsBase : ℚ) / 10 ^ 8
  let liquidation_threshold : ℚ :=
    (d.currentLiquidationThreshold : ℚ) / 10 ^ 4
  let ltv : ℚ := (d.ltv : ℚ) / 10 ^ 4
  let health_factor : ℚ := (d.healthFactor : ℚ) / 10 ^ 18
  let liq_price_data := calculateLiquidationPrice total_collateral
    total_debt (liquidation_threshold / 100) health_factor
  { address := address
    collateral_usd := total_collateral
    debt_usd := total_debt
    available_borrows_usd := available_borrows
    health_factor := health_factor
    liquidation_threshold := liquidation_threshold
    ltv := ltv
    liquidation_price_data := liq_price_data
    timestamp := now
    rpc_used := rpc_url }

/-- The retry loop of `get_position_data` (lines 234–289).
`probes retry` is the liveness-probe oracle the acquire of attempt
`retry` uses; `call retry i` is the outcome of the remote
`getUserAccountData` call of attempt `retry` against the provider at
position `i` (`none` = the call raised).  Returns the fetch result,
the final pool state, and the number of attempts performed. -/
def getPositionDataLoop (address now : String)
    (probes : ℕ → ℕ → ℕ → Bool)
    (call : ℕ → ℕ → Option RawAccountData) :
    ℕ → ℕ → PoolState → Option PositionSnapshot × PoolState × ℕ
  | _, 0, s => (none, s, 0)
  | retry, remaining + 1, s =>
    let acq := getWorkingProvider s (probes retry)
    let i := acq.1
    let s1 := acq.2.1
    match call retry i with
    | some d =>
      (some (parseSnapshot address d
          ((s1.providers.getD i default).url) now),
        reportSuccess s1 i, 1)
    | none =>
      let rest := getPositionDataLoop address now probes call
        (retry + 1) remaining (reportFailure s1 i)
      (rest.1, rest.2.1, rest.2.2 + 1)

/-- `get_position_data(address)`: `max_retries = len(self.w3_providers)`
attempts at most. -/
def getPositionData (address now : String)
    (probes : ℕ → ℕ → ℕ → Bool)
    (call : ℕ → ℕ → Option RawAccountData) (s : PoolState) :
    Option PositionSnapshot × PoolState × ℕ :=
  getPositionDataLoop address now probes call 0 s.providers.length s

/-- One pass of `monitor_loop`'s body (lines 401–406): fetch every
address in order, threading the pool state, and collect the snapshots
of the addresses whose fetch returned one. -/
def pollCycle (now : String) (probes : String → ℕ → ℕ → ℕ → Bool)
    (call : String → ℕ → ℕ → Option RawAccountData) :
    List String → PoolState → List PositionSnapshot × PoolState
  | [], s => ([], s)
  | a :: rest, s =>
    let r := getPositionData a now (probes a) (call a) s
    let tail := pollCycle now probes call rest r.2.1
    match r.1 with
    | some p => (p :: tail.1, tail.2)
    | none => tail

/-- Zeroing all failure counts leaves every provider's URL alone. -/
theorem getD_map_zero_url (l : List Provider) (j : ℕ) :
    ((l.map fun p => ({ p with failed_count := 0 } : Provider)).getD j
        default).url =
      (l.getD j default).url := by
  simp only [List.getD_eq_getElem?_getD, List.getElem?_map]
  cases l[j]? with
  | none => rfl
  | some q => rfl

/-- Acquiring never changes any provider's URL. -/
theorem getWorkingProvider_url (s : PoolState) (probe : ℕ → ℕ → Bool)
    (j : ℕ) :
    (((getWorkingProvider s probe).2.1).providers.getD j default).url =
      (s.providers.getD j default).url := by
  simp only [getWorkingProvider]
  rcases hscan : acquireScan s.providers probe s.current_rpc_index 0
      (s.providers.length * 2) with ⟨res, fin⟩
  cases res with
  | some idx => rfl
  | none => exact getD_map_zero_url s.providers j

/-- C2 (refuted): the code hands the risk calculator the raw threshold
divided by `1e4` *and then by 100 again*, i.e. `raw / 1e6`, not the
spec's `raw / 1e4` fraction: raw 8000 is passed as 0.008, not 0.8. -/
theorem threshold_passed_to_calculator (d : RawAccountData)
    (address rpc_url now : String) :
    (parseSnapshot address d rpc_url now).liquidation_price_data =
      calculateLiquidationPrice ((d.totalCollateralBase : ℚ) / 10 ^ 8)
        ((d.totalDebtBase : ℚ) / 10 ^ 8)
        (liquidationThresholdPassed d.currentLiquidationThreshold)
        ((d.healthFactor : ℚ) / 10 ^ 18) ∧
    liquidationThresholdPassed 8000 = 1 / 125 ∧
    liquidationThresholdSpecFraction 8000 = 4 / 5 ∧
    liquidationThresholdPassed 8000 ≠
      liquidationThresholdSpecFraction 8000 := by
  refine ⟨rfl, ?_, ?_, ?_⟩ <;>
    norm_num [liquidationThresholdPassed, liquidationThresholdSpecFraction]

/-- The loop never performs more attempts than its budget. -/
theorem getPositionDataLoop_attempts_le (address now : String)
    (probes : ℕ → ℕ → ℕ → Bool)
    (call : ℕ → ℕ → Option RawAccountData) :
    ∀ remaining retry s,
      (getPositionDataLoop address now probes call retry remaining s).2.2
        ≤ remaining := by
  intro remaining
  induction remaining with
  | zero => intro retry s; simp [getPositionDataLoop]
  | succ n ih =>
    intro retry s
    simp only [getPositionDataLoop]
    cases call retry (getWorkingProvider s (probes retry)).1 with
    | some d => simp
    | none =>
      simp only []
      exact Nat.succ_le_succ (ih _ _)

/-- When every remote call fails, the loop spends its whole budget and
returns nothing. -/
theorem getPositionDataLoop_all_fail (address now : String)
    (probes : ℕ → ℕ → ℕ → Bool)
    (call : ℕ → ℕ → Option RawAccountData)
    (hfail : ∀ r i, call r i = none) :
    ∀ remaining retry s,
      (getPositionDataLoop address now probes call retry remaining s).1
        = none ∧
      (getPositionDataLoop address now probes call retry remaining s).2.2
        = remaining := by
  intro remaining
  induction remaining with
  | zero => intro retry s; simp [getPositionDataLoop]
  | succ n ih =>
    intro retry s
    simp only [getPositionDataLoop, hfail]
    exact ⟨(ih _ _).1, by rw [(ih _ _).2]⟩

/-- C6: `get_position_data` performs at most `len(self.w3_providers)`
remote-call attempts, whatever the call outcomes; and when every call
fails it returns `none` (absent) after exactly that many attempts,
raising nothing. -/
theorem fetch_attempt_bound (address now : String)
    (probes : ℕ → ℕ → ℕ → Bool)
    (call : ℕ → ℕ → Option RawAccountData) (s : PoolState)
    (hfail : ∀ r i, call r i = none) :
    (getPositionData address now probes call s).1 = none ∧
    (getPositionData address now probes call s).2.2 =
      s.providers.length ∧
    ∀ call2 : ℕ → ℕ → Option RawAccountData,
      (getPositionData address now probes call2 s).2.2 ≤
        s.providers.length := by
  refine ⟨?_, ?_, fun call2 => ?_⟩
  · exact (getPositionDataLoop_all_fail address now probes call hfail
      s.providers.length 0 s).1
  · exact (getPositionDataLoop_all_fail address now probes call hfail
      s.providers.length 0 s).2
  · exact getPositionDataLoop_attempts_le address now probes call2
      s.providers.length 0 s

/-- Witness for C6: a two-endpoint pool with an always-failing call
oracle. -/
theorem fetch_attempt_bound_witness :
    (getPositionData "0xdead" "t0" (fun _ _ _ => true)
      (fun _ _ => none) ⟨[⟨"a", 0⟩, ⟨"b", 0⟩], 0⟩).1 = none ∧
    (getPositionData "0xdead" "t0" (fun _ _ _ => true)
      (fun _ _ => none) ⟨[⟨"a", 0⟩, ⟨"b", 0⟩], 0⟩).2.2 =
      (PoolState.mk [⟨"a", 0⟩, ⟨"b", 0⟩] 0).providers.length ∧
    ∀ call2 : ℕ → ℕ → Option RawAccountData,
      (getPositionData "0xdead" "t0" (fun _ _ _ => true) call2
        ⟨[⟨"a", 0⟩, ⟨"b", 0⟩], 0⟩).2.2 ≤
        (PoolState.mk [⟨"a", 0⟩, ⟨"b", 0⟩] 0).providers.length :=
  fetch_attempt_bound "0xdead" "t0" (fun _ _ _ => true)
    (fun _ _ => none) ⟨[⟨"a", 0⟩, ⟨"b", 0⟩], 0⟩ (fun _ _ => rfl)

/-- C7: when the first attempt's remote call succeeds with raw values
`d`, the fetch returns a snapshot whose metrics are the fixed-scale
quotients (collateral / debt / available borrows by `1e8`, threshold
and LTV by `1e4`, health factor by `1e18`) and whose `rpc_used` is the
URL of the endpoint that served the call. -/
theorem fetch_success_scaling (address now : String)
    (probes : ℕ → ℕ → ℕ → Bool)
    (call : ℕ → ℕ → Option RawAccountData) (s : PoolState)
    (d : RawAccountData) (hlen : 0 < s.providers.length)
    (hcall : call 0 (getWorkingProvider s (probes 0)).1 = some d) :
    ∃ p, (getPositionData address now probes call s).1 = some p ∧
      p.collateral_usd = (d.totalCollateralBase : ℚ) / 10 ^ 8 ∧
      p.debt_usd = (d.totalDebtBase : ℚ) / 10 ^ 8 ∧
      p.available_borrows_usd = (d.availableBorrowsBase : ℚ) / 10 ^ 8 ∧
      p.liquidation_threshold =
        (d.currentLiquidationThreshold : ℚ) / 10 ^ 4 ∧
      p.ltv = (d.ltv : ℚ) / 10 ^ 4 ∧
      p.health_factor = (d.healthFactor : ℚ) / 10 ^ 18 ∧
      p.rpc_used = (s.providers.getD
        (getWorkingProvider s (probes 0)).1 default).url ∧
      p.address = address := by
  obtain ⟨m, hm⟩ : ∃ m, s.providers.length = m + 1 :=
    ⟨s.providers.length - 1, by omega⟩
  simp only [getPositionData, hm, getPositionDataLoop, hcall]
  refine ⟨_, rfl, rfl, rfl, rfl, rfl, rfl, rfl, ?_, rfl⟩
  exact getWorkingProvider_url s (probes 0)
    (getWorkingProvider s (probes 0)).1

/-- Witness for C7: one endpoint, the call returns concrete raw
values. -/
theorem fetch_success_scaling_witness :
    ∃ p, (getPositionData "0xdead" "t0" (fun _ _ _ => true)
        (fun _ _ => some ⟨120, 34, 5, 8000, 7000, 10 ^ 18⟩)
        ⟨[⟨"u", 0⟩], 0⟩).1 = some p ∧
      p.collateral_usd = ((120 : ℕ) : ℚ) / 10 ^ 8 ∧
      p.debt_usd = ((34 : ℕ) : ℚ) / 10 ^ 8 ∧
      p.available_borrows_usd = ((5 : ℕ) : ℚ) / 10 ^ 8 ∧
      p.liquidation_threshold = ((8000 : ℕ) : ℚ) / 10 ^ 4 ∧
      p.ltv = ((7000 : ℕ) : ℚ) / 10 ^ 4 ∧
      p.health_factor = ((10 ^ 18 : ℕ) : ℚ) / 10 ^ 18 ∧
      p.rpc_used = (([⟨"u", 0⟩] : List Provider).getD
        (getWorkingProvider ⟨[⟨"u", 0⟩], 0⟩ (fun _ _ => true)).1
          default).url ∧
      p.address = "0xdead" :=
  fetch_success_scaling "0xdead" "t0" (fun _ _ _ => true)
    (fun _ _ => some ⟨120, 34, 5, 8000, 7000, 10 ^ 18⟩)
    ⟨[⟨"u", 0⟩], 0⟩ ⟨120, 34, 5, 8000, 7000, 10 ^ 18⟩
    (by decide) rfl

/-- C10: when the remote read succeeds but the inputs to the risk
calculator are degenerate (zero raw collateral, debt or threshold),
the fetch still returns a snapshot — with `liquidation_price_data =
none` and the other fields populated — and a cycle over that address
includes it in the aggregate. -/
theorem fetch_degenerate_snapshot (address now : String)
    (probes : ℕ → ℕ → ℕ → Bool)
    (call : ℕ → ℕ → Option RawAccountData) (s : PoolState)
    (d : RawAccountData) (hlen : 0 < s.providers.length)
    (hcall : call 0 (getWorkingProvider s (probes 0)).1 = some d)
    (hdeg : d.totalCollateralBase = 0 ∨ d.totalDebtBase = 0 ∨
      d.currentLiquidationThreshold = 0) :
    ∃ p, (getPositionData address now probes call s).1 = some p ∧
      p.liquidation_price_data = none ∧
      p.address = address ∧
      p.health_factor = (d.healthFactor : ℚ) / 10 ^ 18 ∧
      (pollCycle now (fun _ => probes) (fun _ => call) [address] s).1 =
        [p] := by
  obtain ⟨m, hm⟩ : ∃ m, s.providers.length = m + 1 :=
    ⟨s.providers.length - 1, by omega⟩
  have hdeg' : ((d.totalCollateralBase : ℚ) / 10 ^ 8 = 0 ∨
      (d.totalDebtBase : ℚ) / 10 ^ 8 = 0 ∨
      (d.currentLiquidationThreshold : ℚ) / 10 ^ 4 / 100 = 0) := by
    rcases hdeg with h | h | h <;> [left; (right; left); (right; right)]
      <;> rw [h] <;> norm_num
  refine ⟨parseSnapshot address d
    (((getWorkingProvider s (probes 0)).2.1.providers.getD
      (getWorkingProvider s (probes 0)).1 default).url) now, ?_, ?_,
    rfl, rfl, ?_⟩
  · simp only [getPositionData, hm, getPositionDataLoop, hcall]
  · show calculateLiquidationPrice _ _ _ _ = none
    simp only [calculateLiquidationPrice, if_pos hdeg']
  · simp only [pollCycle, getPositionData, hm, getPositionDataLoop,
      hcall]

/-- Witness for C10: one endpoint, the call returns raw data with zero
collateral. -/
theorem fetch_degenerate_snapshot_witness :
    ∃ p, (getPositionData "0xdead" "t0" (fun _ _ _ => true)
        (fun _ _ => some ⟨0, 34, 5, 8000, 7000, 10 ^ 18⟩)
        ⟨[⟨"u", 0⟩], 0⟩).1 = some p ∧
      p.liquidation_price_data = none ∧
      p.address = "0xdead" ∧
      p.health_factor = ((10 ^ 18 : ℕ) : ℚ) / 10 ^ 18 ∧
      (pollCycle "t0" (fun _ => fun _ _ _ => true)
        (fun _ => fun _ _ => some ⟨0, 34, 5, 8000, 7000, 10 ^ 18⟩)
        ["0xdead"] ⟨[⟨"u", 0⟩], 0⟩).1 = [p] :=
  fetch_degenerate_snapshot "0xdead" "t0" (fun _ _ _ => true)
    (fun _ _ => some ⟨0, 34, 5, 8000, 7000, 10 ^ 18⟩)
    ⟨[⟨"u", 0⟩], 0⟩ ⟨0, 34, 5, 8000, 7000, 10 ^ 18⟩
    (by decide) rfl (Or.inl rfl)

end AaveMonitor
